import Mathlib

/-!
Verification of the AlwaysEn input-method watchdog (`src/main.py`).

The development is a shallow embedding of the program's core: the LANGID
classifier and layout inspector (`InputMethodManager`), the layout corrector
(`force_english_for_hwnd`), the mode-specific target resolvers and the
per-cycle check (`InputSwitcherApp._check_input_method`), and the monitoring
session lifecycle (`start_monitoring` / `stop_monitoring` / the polling loop of
`monitor_window`).

Windows API and psutil calls are modelled by an environment record `OSEnv`
whose fields return `Option` values: `none` stands for the call raising an
exception (every such call site in the source sits inside a `try`/`except`).
Tkinter UI updates, `print` logging and the rate-limited debug log are elided:
they do not influence the state or control flow the claims are about.
-/

namespace AlwaysEn

/-- The three monitoring modes of `InputSwitcherApp.monitor_mode`:
`"window"`, `"process"`, `"path"`. -/
inductive Mode where
  | window
  | process
  | path
deriving DecidableEq, Repr

/-- The OS surface the program consumes, one field per API call.
`none` models the Python call raising an exception at that call site. -/
structure OSEnv where
  /-- `user32.GetForegroundWindow()`; `0` models a null handle (`int(... or 0)`). -/
  foregroundWindow : Nat
  /-- `user32.GetAncestor(hwnd, GA_ROOT)` inside `_get_root_hwnd`'s `try`. -/
  getAncestor : Nat → Option Nat
  /-- `user32.GetWindowThreadProcessId(hwnd, byref(pid))`: returns the thread id
  and writes the process id, modelled as the pair `(tid, pid)`. -/
  getWindowPidTid : Nat → Option (Nat × Nat)
  /-- `psutil.Process(pid).exe()`; `none` models `NoSuchProcess` / `AccessDenied`
  / `ZombieProcess` or any other raised exception. -/
  processExe : Nat → Option String
  /-- `user32.GetKeyboardLayout(tid)`. -/
  getKeyboardLayout : Nat → Option Nat
  /-- `user32.LoadKeyboardLayoutW(LAYOUT_EN_US, 0)`; `0` is the API's failure value. -/
  loadKeyboardLayout : Nat
  /-- `user32.SendMessageTimeoutW(...)` with `WM_INPUTLANGCHANGEREQUEST`;
  `none` models the call raising (the source then sets `send_ok = 0`). -/
  sendMessageTimeout : Option Nat
  /-- `user32.AttachThreadInput(current_tid, target_tid, True)` as a Bool. -/
  attachThreadInput : Bool
  /-- `user32.ActivateKeyboardLayout(hkl, KLF_ACTIVATE | KLF_SETFORPROCESS)`. -/
  activateKeyboardLayout : Nat
  /-- `kernel32.GetCurrentThreadId()`. -/
  currentThreadId : Nat

/-! ### InputMethodManager -/

/-- `InputMethodManager.PRIMARY_LANG_EN = 0x0009`. -/
def PRIMARY_LANG_EN : Nat := 0x0009

/-- `InputMethodManager.LAYOUT_EN_US = "00000409"`. -/
def LAYOUT_EN_US : String := "00000409"

/-- One hexadecimal digit as Python's `"%X"` format prints it (uppercase). -/
def hexDigit (n : Nat) : Char :=
  if n < 10 then Char.ofNat (48 + n) else Char.ofNat (55 + n)

/-- Python's `f"{v:04X}"` for `v < 2^16`: exactly four uppercase hex digits,
zero padded.  The source only applies the format to `layout_id & 0xFFFF`. -/
def toHex4 (v : Nat) : String :=
  String.mk [hexDigit (v / 4096 % 16), hexDigit (v / 256 % 16),
             hexDigit (v / 16 % 16), hexDigit (v % 16)]

/-- `InputMethodManager.get_current_keyboard_layout(hwnd)`: resolve the window's
owning thread, read its keyboard layout and format the low 16 bits as a
4-hex-digit string; any raised exception yields `None`. -/
def get_current_keyboard_layout (env : OSEnv) (hwnd : Nat) : Option String :=
  match env.getWindowPidTid hwnd with
  | none => none
  | some (tid, _pid) =>
    match env.getKeyboardLayout tid with
    | none => none
    | some layout_id => some (toHex4 (layout_id % 65536))

/-- `InputMethodManager.is_english_langid(langid_value)`:
`(langid_value & 0x03FF) == PRIMARY_LANG_EN`. -/
def is_english_langid (langid_value : Nat) : Bool :=
  (langid_value &&& 0x03FF) == PRIMARY_LANG_EN

/-- The observable actions `force_english_for_hwnd` can perform, in source
order: loading the layout, the timed message send, the settle `time.sleep(0.1)`,
and the attach / activate / detach calls of the fallback. -/
inductive Effect where
  | loadLayout
  | sendMessage
  | sleepSettle
  | attach
  | activate
  | detach
deriving DecidableEq, Repr

/-- The fallback block of `force_english_for_hwnd` (step 3): resolve the target
thread (a raised exception aborts before attaching), attach, activate, and
detach in the `finally` only when the attach call returned nonzero. -/
def fallbackEffects (env : OSEnv) (hwnd : Nat) : List Effect :=
  match env.getWindowPidTid hwnd with
  | none => []
  | some _ =>
    [Effect.attach, Effect.activate]
      ++ (if env.attachThreadInput then [Effect.detach] else [])

/-- `InputMethodManager.force_english_for_hwnd(hwnd)` as the list of effects it
performs: load the English-US layout (abort on failure), send the timed
`WM_INPUTLANGCHANGEREQUEST` (a raised exception sets `send_ok = 0`), and on a
nonzero send result sleep and return; otherwise run the attach fallback. -/
def force_english_for_hwnd (env : OSEnv) (hwnd : Nat) : List Effect :=
  if env.loadKeyboardLayout = 0 then [Effect.loadLayout]
  else if (env.sendMessageTimeout).getD 0 ≠ 0 then
    [Effect.loadLayout, Effect.sendMessage, Effect.sleepSettle]
  else
    [Effect.loadLayout, Effect.sendMessage] ++ fallbackEffects env hwnd

/-! ### Path normalization (`os.path.normpath` on Windows)

`_is_window_belongs_to_path` compares `os.path.normpath(target.lower())` with
`os.path.normpath(exe.lower())`.  The model below follows CPython's
`ntpath.normpath` / `ntpath.splitdrive`: special `\\.\` and `\\?\` paths pass
through untouched, `/` is replaced by `\`, the drive (drive letter or UNC
share) and root are split off, empty and `.` components are dropped, `..`
consumes a preceding component (or is dropped at an absolute root).
`str.lower()` is modelled on the ASCII range. -/

/-- The Windows path separator, `ntpath.sep`. -/
def pathSep : Char := '\\'

/-- ASCII case folding of one character (`str.lower()` restricted to ASCII,
which covers the drive-letter paths the claims are about). -/
def asciiLowerChar (c : Char) : Char :=
  if 'A' ≤ c ∧ c ≤ 'Z' then Char.ofNat (c.toNat + 32) else c

/-- `s.lower()` on the ASCII range, character by character. -/
def asciiLower (s : String) : String := String.mk (s.toList.map asciiLowerChar)

/-- `path.replace(altsep, sep)`: every `/` becomes `\`. -/
def replaceAltSep (s : String) : String :=
  String.mk (s.toList.map (fun c => if c = '/' then pathSep else c))

/-- Index of the first occurrence of a character, `str.find` restricted to the
tail being searched. -/
def findCharIdx (c : Char) : List Char → Option Nat
  | [] => none
  | a :: as => if a = c then some 0 else (findCharIdx c as).map (· + 1)

/-- `ntpath.splitroot` on a string whose `/` have already been replaced by
`\` (which is how `normpath` calls it): splits a path into drive (a leading
`X:` or a `\\server\share` UNC share), root (the separator making it
absolute, if any) and the rest.  The `\\?\UNC\` form never reaches this
function because `normpath` returns `\\?\` paths untouched. -/
def splitroot (cs : List Char) : List Char × List Char × List Char :=
  match cs with
  | [] => ([], [], [])
  | a :: rest1 =>
    if a = pathSep then
      match rest1 with
      | b :: rest2 =>
        if b = pathSep then
          match findCharIdx pathSep rest2 with
          | none => (cs, [], [])
          | some i =>
            match findCharIdx pathSep (rest2.drop (i + 1)) with
            | none => (cs, [], [])
            | some j =>
              (cs.take (2 + i + 1 + j), [pathSep], cs.drop (2 + i + 1 + j + 1))
        else ([], [pathSep], rest1)
      | [] => ([], [pathSep], [])
    else
      match rest1 with
      | b :: rest2 =>
        if b = ':' then
          match rest2 with
          | c :: rest3 =>
            if c = pathSep then ([a, b], [pathSep], rest3) else ([a, b], [], rest2)
          | [] => ([a, b], [], [])
        else ([], [], cs)
      | [] => ([], [], cs)

/-- `path.split(sep)` with an explicit separator: empty pieces between
consecutive separators and at the ends are kept, as in Python. -/
def splitOnSepAux : List Char → List Char → List String
  | cur, [] => [String.mk cur.reverse]
  | cur, c :: cs =>
    if c = pathSep then String.mk cur.reverse :: splitOnSepAux [] cs
    else splitOnSepAux (c :: cur) cs

/-- `path.split(sep)`. -/
def splitOnSep (cs : List Char) : List String := splitOnSepAux [] cs

/-- The component-collapsing loop of `ntpath.normpath`, written with an
accumulator in place of CPython's in-place deletions: empty and `.` pieces are
dropped, `..` pops a preceding non-`..` component, and at an absolute root a
leading `..` is dropped. -/
def collapseComps (hasRoot : Bool) : List String → List String → List String
  | acc, [] => acc.reverse
  | acc, c :: cs =>
    if c = "" ∨ c = "." then collapseComps hasRoot acc cs
    else if c = ".." then
      match acc with
      | prev :: acc2 =>
        if prev = ".." then collapseComps hasRoot (c :: acc) cs
        else collapseComps hasRoot acc2 cs
      | [] =>
        if hasRoot then collapseComps hasRoot [] cs
        else collapseComps hasRoot [c] cs
    else collapseComps hasRoot (c :: acc) cs

/-- `path.startswith(('\\\\.\\', '\\\\?\\'))`: the two special path forms
`normpath` returns untouched. -/
def startsWithSpecial (s : String) : Bool :=
  match s.toList with
  | '\\' :: '\\' :: '.' :: '\\' :: _ => true
  | '\\' :: '\\' :: '?' :: '\\' :: _ => true
  | _ => false

/-- `os.path.normpath` on Windows (CPython's `ntpath.normpath`). -/
def normpath (s : String) : String :=
  if startsWithSpecial s then s
  else
    let s1 := replaceAltSep s
    let (drv, root, rest) := splitroot s1.toList
    let pfx := drv ++ root
    let comps := collapseComps (root ≠ []) [] (splitOnSep rest)
    let comps := if pfx = [] ∧ comps = [] then ["."] else comps
    String.mk pfx ++ String.intercalate (String.mk [pathSep]) comps

/-! ### Target resolution (`InputSwitcherApp`) -/

/-- The `InputSwitcherApp` fields the per-cycle check reads and writes.
`target_window` is the selected `pygetwindow` window object abstracted to its
handle (`none` is Python `None`; a present object is always truthy).
`target_root_hwnd` and `target_pid` are `None` or `int`s (so `some 0` is
falsy where the source tests truthiness).  `lang_id_is_english` is the
`InputMethodManager.lang_id_is_english` flag and `last_lang_tag` the status
string cache, the two pieces of layout state the loop mutates. -/
structure AppState where
  monitor_mode : Mode
  target_window : Option Nat
  target_root_hwnd : Option Nat
  target_pid : Option Nat
  target_process_path : Option String
  lang_id_is_english : Bool
  last_lang_tag : String
deriving DecidableEq, Repr

/-- `InputSwitcherApp._get_root_hwnd(hwnd)`: `GetAncestor(hwnd, GA_ROOT)`, and
on a raised exception the handle itself (`return int(hwnd)`). -/
def get_root_hwnd (env : OSEnv) (hwnd : Nat) : Nat :=
  match env.getAncestor hwnd with
  | some root => root
  | none => hwnd

/-- `InputSwitcherApp._is_window_belongs_to_process(hwnd, target_pid)`: a null
handle, a raised lookup, or an unset `target_pid` (Python `pid.value == None`
is `False`) give `False`; otherwise compare process ids. -/
def is_window_belongs_to_process (env : OSEnv) (hwnd : Nat)
    (target_pid : Option Nat) : Bool :=
  if hwnd = 0 then false
  else
    match env.getWindowPidTid hwnd with
    | none => false
    | some (_tid, pid) =>
      match target_pid with
      | none => false
      | some t => pid == t

/-- `InputSwitcherApp._is_window_belongs_to_path(hwnd)`: a null handle, an
unset or empty target path, a raised or zero pid lookup, or a failed
executable-path lookup give `False`; otherwise compare
`os.path.normpath(path.lower())` of the target and of the process. -/
def is_window_belongs_to_path (env : OSEnv) (target_process_path : Option String)
    (hwnd : Nat) : Bool :=
  match target_process_path with
  | none => false
  | some t =>
    if hwnd = 0 ∨ t = "" then false
    else
      match env.getWindowPidTid hwnd with
      | none => false
      | some (_tid, pid) =>
        if pid = 0 then false
        else
          match env.processExe pid with
          | none => false
          | some exe => normpath (asciiLower t) == normpath (asciiLower exe)

/-- The `should_process` computation of `_check_input_method` (its mode
branch): window mode needs a truthy `target_window` and `target_root_hwnd` and
compares root handles (`fg_root is not None` always holds, `_get_root_hwnd`
never returns `None`); process and path modes delegate to the two
`_is_window_belongs_to_*` helpers. -/
def resolveTarget (env : OSEnv) (st : AppState) (fg_hwnd : Nat) : Bool :=
  match st.monitor_mode with
  | Mode.window =>
    match st.target_window, st.target_root_hwnd with
    | some _, some r =>
      if r ≠ 0 then get_root_hwnd env fg_hwnd == r else false
    | _, _ => false
  | Mode.process => is_window_belongs_to_process env fg_hwnd st.target_pid
  | Mode.path => is_window_belongs_to_path env st.target_process_path fg_hwnd

/-- Hexadecimal digit as Python `int(s, 16)` accepts it. -/
def isHexDigitChar (c : Char) : Bool :=
  ('0' ≤ c ∧ c ≤ '9') ∨ ('a' ≤ c ∧ c ≤ 'f') ∨ ('A' ≤ c ∧ c ≤ 'F')

/-- Value of one hexadecimal digit. -/
def hexCharVal (c : Char) : Nat :=
  if '0' ≤ c ∧ c ≤ '9' then c.toNat - 48
  else if 'a' ≤ c ∧ c ≤ 'f' then c.toNat - 87
  else c.toNat - 55

/-- Base-16 value of a digit string. -/
def hexDigitsVal (l : List Char) : Nat :=
  l.foldl (fun acc c => acc * 16 + hexCharVal c) 0

/-- Python's `int(s, 16)` as `_check_input_method` uses it: `none` models a
raised `ValueError`.  An optional `0x`/`0X` prefix is accepted; the sign,
surrounding-whitespace and underscore forms of Python's grammar are not
modelled (the tag reaching this call site is the Inspector's output, bare hex
digits). -/
def pyIntHex (s : String) : Option Nat :=
  let cs :=
    match s.toList with
    | '0' :: 'x' :: rest => rest
    | '0' :: 'X' :: rest => rest
    | cs => cs
  if cs ≠ [] ∧ cs.all isHexDigitChar then some (hexDigitsVal cs) else none

/-- The tail of `_check_input_method` once a layout tag has been read (source
lines 635-665): cache the tag in `last_lang_tag`, parse it as hex (a
`ValueError` yields `0`), classify, and either record English (no correction)
or record non-English and invoke `force_english_for_hwnd`.  The returned
Bool states whether the corrector was invoked on this cycle. -/
def processLangTag (st : AppState) (tag : String) : AppState × Bool :=
  let langid_value := (pyIntHex tag).getD 0
  if is_english_langid langid_value then
    ({ st with last_lang_tag := tag, lang_id_is_english := true }, false)
  else
    ({ st with last_lang_tag := tag, lang_id_is_english := false }, true)

/-- `InputSwitcherApp._check_input_method()`: one polling cycle.  A null
foreground handle skips; a non-matching target skips (debug log only); an
unavailable layout tag skips; otherwise the tag is cached, parsed and acted
on.  Returns the new state and whether the corrector was invoked. -/
def check_input_method (env : OSEnv) (st : AppState) : AppState × Bool :=
  if env.foregroundWindow = 0 then (st, false)
  else if resolveTarget env st env.foregroundWindow then
    match get_current_keyboard_layout env env.foregroundWindow with
    | none => (st, false)
    | some tag => processLangTag st tag
  else (st, false)

/-! ### Monitoring session lifecycle -/

/-- The session state `start_monitoring` / `stop_monitoring` and the polling
tasks share: the mode and target fields the start checks read, the
`is_running` flag, and one Bool per polling task spawned so far (`true` while
the task is still inside its `while self.is_running` loop, `false` once it
has observed a cleared flag and exited). -/
structure Session where
  monitor_mode : Mode
  target_pid : Option Nat
  target_process_path : Option String
  is_running : Bool
  tasks : List Bool
deriving DecidableEq, Repr

/-- `InputSwitcherApp.start_monitoring()`: when not running and a target for
the current mode is selected, set `is_running` and spawn a polling task;
otherwise warn (`messagebox.showwarning`) and change nothing.  The Bool
states whether a warning was shown.  Button state changes are elided. -/
def start_monitoring (s : Session) : Session × Bool :=
  if s.is_running = false then
    if s.monitor_mode = Mode.window ∧ s.target_pid ≠ none then
      ({ s with is_running := true, tasks := s.tasks ++ [true] }, false)
    else if s.monitor_mode = Mode.process ∧ s.target_pid ≠ none then
      ({ s with is_running := true, tasks := s.tasks ++ [true] }, false)
    else if s.monitor_mode = Mode.path ∧ s.target_process_path ≠ none then
      ({ s with is_running := true, tasks := s.tasks ++ [true] }, false)
    else (s, true)
  else (s, true)

/-- `InputSwitcherApp.stop_monitoring()`: clear the flag when running,
otherwise warn.  The Bool states whether a warning was shown. -/
def stop_monitoring (s : Session) : Session × Bool :=
  if s.is_running then ({ s with is_running := false }, false)
  else (s, true)

/-- Interleaving events of the UI thread and the polling tasks: a start
click, a stop click, and task `i` reaching its `while self.is_running` check
(the only point at which a task can observe a stop; the loop body and the
`time.sleep(0.1)` sit between consecutive checks). -/
inductive Ev where
  | start
  | stop
  | tick (i : Nat)
deriving DecidableEq, Repr

/-- One interleaving step.  A `tick` by a live task that observes a cleared
flag exits the task; a live task observing the flag set goes around the loop
once more; ticks by exited or nonexistent tasks change nothing. -/
def sessionStep (s : Session) : Ev → Session
  | Ev.start => (start_monitoring s).1
  | Ev.stop => (stop_monitoring s).1
  | Ev.tick i =>
    if s.tasks.getD i false then
      if s.is_running then s
      else { s with tasks := s.tasks.set i false }
    else s

/-- Run a sequence of interleaving events. -/
def runEvents (s : Session) (es : List Ev) : Session :=
  es.foldl sessionStep s

/-- How many polling tasks are still inside their loop. -/
def countActive : List Bool → Nat
  | [] => 0
  | true :: t => countActive t + 1
  | false :: t => countActive t

/-! ### Derived notions the claims quantify over, and concrete scenarios -/

/-- Uppercase hexadecimal digit, the alphabet of the Inspector's output. -/
def isUpperHexDigit (c : Char) : Bool :=
  ('0' ≤ c ∧ c ≤ '9') ∨ ('A' ≤ c ∧ c ≤ 'F')

/-- The comparison the specification's words describe for path mode:
lowercasing plus path-separator normalization (forward slashes replaced by
backslashes) and nothing else.  Contrast with the source's
`normpath ∘ lower`, which additionally collapses `.`, `..` and redundant
separators. -/
def specSepNormalize (s : String) : String := replaceAltSep (asciiLower s)

/-- An environment in which every OS lookup raises: the foreground handle is
7 and nothing about it can be resolved. -/
def envLookupFail : OSEnv :=
  { foregroundWindow := 7, getAncestor := fun _ => none,
    getWindowPidTid := fun _ => none, processExe := fun _ => none,
    getKeyboardLayout := fun _ => none, loadKeyboardLayout := 0,
    sendMessageTimeout := none, attachThreadInput := false,
    activateKeyboardLayout := 0, currentThreadId := 0 }

/-- An environment in which the ancestor lookup raises while the raw
foreground handle, 5, happens to equal a selected target root. -/
def envRootFail : OSEnv := { envLookupFail with foregroundWindow := 5 }

/-- An environment in which every lookup succeeds: foreground window 9 owned
by thread 1 of process 42 running `C:\Foo.exe` with layout handle
`0x04090409`, and all correction calls succeed. -/
def envHappy : OSEnv :=
  { foregroundWindow := 9, getAncestor := fun h => some h,
    getWindowPidTid := fun _ => some (1, 42),
    processExe := fun _ => some "C:\\Foo.exe",
    getKeyboardLayout := fun _ => some 0x04090409, loadKeyboardLayout := 1,
    sendMessageTimeout := some 1, attachThreadInput := true,
    activateKeyboardLayout := 1, currentThreadId := 7 }

/-- Like `envHappy` but the executable-path lookup is denied. -/
def envExeDenied : OSEnv := { envHappy with processExe := fun _ => none }

/-- Like `envLookupFail` but the pid lookup succeeds with process id 0 (the
value the API writes back when it fails without raising) while the
executable lookup would succeed. -/
def envPidZero : OSEnv :=
  { envLookupFail with
    getWindowPidTid := fun _ => some (1, 0)
    processExe := fun _ => some "C:\\Foo.exe" }

/-- Like `envHappy` but the process's executable comes back in lower case
with forward slashes. -/
def envExeLower : OSEnv :=
  { envHappy with processExe := fun _ => some "c:\\apps\\foo.exe" }

/-- Like `envHappy` but the timed message send raises. -/
def envSendFail : OSEnv := { envHappy with sendMessageTimeout := none }

/-- A window-mode state with window 1 selected, target root 5, and English
currently recorded. -/
def stW : AppState :=
  { monitor_mode := Mode.window, target_window := some 1,
    target_root_hwnd := some 5, target_pid := some 42,
    target_process_path := some "C:\\Foo.exe", lang_id_is_english := true,
    last_lang_tag := "0409" }

/-- A freshly constructed window-mode session with a target selected and no
monitoring started. -/
def sessFresh : Session :=
  { monitor_mode := Mode.window, target_pid := some 10,
    target_process_path := none, is_running := false, tasks := [] }

/-- The session right after a successful start: the flag is set and one
polling task is inside its loop. -/
def sessOne : Session :=
  { monitor_mode := Mode.window, target_pid := some 10,
    target_process_path := none, is_running := true, tasks := [true] }

/-! ### Helper lemmas -/

theorem hexDigit_isUpper : ∀ m, m < 16 → isUpperHexDigit (hexDigit m) = true := by
  decide

theorem toHex4_length (v : Nat) : (toHex4 v).length = 4 := rfl

theorem toHex4_all_upper (v : Nat) :
    (toHex4 v).toList.all isUpperHexDigit = true := by
  have h1 := hexDigit_isUpper (v / 4096 % 16) (Nat.mod_lt _ (by decide))
  have h2 := hexDigit_isUpper (v / 256 % 16) (Nat.mod_lt _ (by decide))
  have h3 := hexDigit_isUpper (v / 16 % 16) (Nat.mod_lt _ (by decide))
  have h4 := hexDigit_isUpper (v % 16) (Nat.mod_lt _ (by decide))
  simp [toHex4, h1, h2, h3, h4]

theorem countActive_append (l1 l2 : List Bool) :
    countActive (l1 ++ l2) = countActive l1 + countActive l2 := by
  induction l1 with
  | nil => simp [countActive]
  | cons a t ih =>
    cases a with
    | false => simp [countActive, ih]
    | true => simp [countActive, ih]; omega

theorem countActive_set_false (l : List Bool) : ∀ i : Nat,
    l.getD i false = true →
    countActive (l.set i false) + 1 = countActive l := by
  induction l with
  | nil => intro i h; simp [List.getD] at h
  | cons a t ih =>
    intro i h
    cases i with
    | zero =>
      have ha : a = true := by simpa [List.getD] using h
      subst ha
      simp [List.set, countActive]
    | succ j =>
      have h2 : t.getD j false = true := by simpa [List.getD] using h
      have := ih j h2
      cases a <;> simp [List.set, countActive] <;> omega

theorem getD_set_false (l : List Bool) : ∀ i : Nat,
    (l.set i false).getD i false = false := by
  induction l with
  | nil => intro i; simp [List.getD]
  | cons a t ih =>
    intro i
    cases i with
    | zero => simp [List.set, List.getD]
    | succ j => simpa [List.set, List.getD] using ih j

theorem start_tasks_cases (s : Session) :
    ((start_monitoring s).1).tasks = s.tasks
    ∨ ((start_monitoring s).1).tasks = s.tasks ++ [true] := by
  unfold start_monitoring
  split
  · split
    · right; rfl
    · split
      · right; rfl
      · split
        · right; rfl
        · left; rfl
  · left; rfl

/-! ### The claims -/

/-- C1: for every 16-bit layout code `L`, `is_english_langid` returns true
iff the low 10 bits of `L` (that is, `L % 2^10`) equal `0x0009`; in
particular `0x0409` and `0x0809` classify as English and `0x0404` does not. -/
theorem c1_classifier_low10 (L : Nat) (_hL : L < 65536) :
    (is_english_langid L = true ↔ L % 1024 = 9)
    ∧ is_english_langid 0x0409 = true
    ∧ is_english_langid 0x0809 = true
    ∧ is_english_langid 0x0404 = false := by
  refine ⟨?_, by decide, by decide, by decide⟩
  have h : L &&& 1023 = L % 1024 := by
    simpa using Nat.and_pow_two_sub_one_eq_mod L 10
  simp [is_english_langid, PRIMARY_LANG_EN, h]

/-- C1 witness: the classifier evaluated at the concrete layout codes. -/
theorem c1_classifier_low10_witness :
    (is_english_langid 0x0409 = true ↔ 0x0409 % 1024 = 9)
    ∧ is_english_langid 0x0409 = true
    ∧ is_english_langid 0x0809 = true
    ∧ is_english_langid 0x0404 = false :=
  c1_classifier_low10 0x0409 (by decide)

/-- C2 counterexample: the claim's universal fail-closed property is false in
window mode.  With the ancestor lookup raising and the raw foreground handle
equal to the stored target root, the resolver returns true, not false. -/
theorem c2_fail_closed_cex :
    envRootFail.getAncestor 5 = none
    ∧ resolveTarget envRootFail stW 5 = true :=
  ⟨rfl, rfl⟩

/-- C2 (amended): in path mode every OS lookup failure resolves to "does not
belong" — a raised pid lookup, a pid resolved as 0, and a denied
executable-path lookup all give false.  In process mode a raised pid lookup
gives false, and an unset target pid gives false, but there is no zero-pid
guard: a successfully returned pid (even 0) is simply compared against the
stored target pid.  In window mode a failed ancestor lookup substitutes the
raw handle itself as its own root, so the resolver returns false whenever the
raw foreground handle differs from the stored target root. -/
theorem c2_fail_closed_amended (env : OSEnv) (st : AppState) (fg : Nat)
    (tpid : Option Nat) (tpath : Option String) :
    (env.getWindowPidTid fg = none →
      is_window_belongs_to_process env fg tpid = false)
    ∧ (∀ tid pid, env.getWindowPidTid fg = some (tid, pid) → tpid = none →
      is_window_belongs_to_process env fg tpid = false)
    ∧ (∀ tid pid t, env.getWindowPidTid fg = some (tid, pid) → tpid = some t →
      fg ≠ 0 →
      is_window_belongs_to_process env fg tpid = (pid == t))
    ∧ (env.getWindowPidTid fg = none →
      is_window_belongs_to_path env tpath fg = false)
    ∧ (∀ tid, env.getWindowPidTid fg = some (tid, 0) →
      is_window_belongs_to_path env tpath fg = false)
    ∧ (∀ tid pid, env.getWindowPidTid fg = some (tid, pid) →
      env.processExe pid = none →
      is_window_belongs_to_path env tpath fg = false)
    ∧ (st.monitor_mode = Mode.window → env.getAncestor fg = none →
      (∀ r, st.target_root_hwnd = some r → fg ≠ r) →
      resolveTarget env st fg = false) := by
  refine ⟨?_, ?_, ?_, ?_, ?_, ?_, ?_⟩
  · intro h
    simp [is_window_belongs_to_process, h]
  · intro tid pid h ht
    subst ht
    by_cases hfg : fg = 0 <;> simp [is_window_belongs_to_process, hfg, h]
  · intro tid pid t h ht hfg
    subst ht
    simp [is_window_belongs_to_process, hfg, h]
  · intro h
    cases tpath <;> simp [is_window_belongs_to_path, h]
  · intro tid h
    cases tpath <;> simp [is_window_belongs_to_path, h]
  · intro tid pid h1 h2
    cases tpath <;> simp [is_window_belongs_to_path, h1, h2]
  · intro hm ha hr
    cases htw : st.target_window with
    | none => simp [resolveTarget, hm, htw]
    | some w =>
      cases htr : st.target_root_hwnd with
      | none => simp [resolveTarget, hm, htw, htr]
      | some r =>
        have hne : fg ≠ r := hr r htr
        by_cases hr0 : r = 0
        · simp [resolveTarget, hm, htw, htr, hr0]
        · simp [resolveTarget, hm, htw, htr, hr0, get_root_hwnd, ha, hne]

/-- C2 witness: each mode's behavior at a concrete input: a raised pid lookup
in process mode, an unset target pid, a zero pid compared as-is (matching a
zero target pid, since process mode has no zero-pid guard), a raised pid
lookup, a zero pid and a denied executable lookup in path mode (all false),
and a raised ancestor lookup in window mode with a non-matching raw
handle. -/
theorem c2_fail_closed_amended_witness :
    is_window_belongs_to_process envLookupFail 7 (some 3) = false
    ∧ is_window_belongs_to_process envPidZero 7 none = false
    ∧ is_window_belongs_to_process envPidZero 7 (some 0) = true
    ∧ is_window_belongs_to_path envLookupFail (some "C:\\Foo.exe") 7 = false
    ∧ is_window_belongs_to_path envPidZero (some "C:\\Foo.exe") 7 = false
    ∧ is_window_belongs_to_path envExeDenied (some "C:\\Foo.exe") 9 = false
    ∧ resolveTarget envLookupFail stW 7 = false :=
  ⟨(c2_fail_closed_amended envLookupFail stW 7 (some 3) (some "C:\\Foo.exe")).1 rfl,
   (c2_fail_closed_amended envPidZero stW 7 none (some "C:\\Foo.exe")).2.1
     1 0 rfl rfl,
   (c2_fail_closed_amended envPidZero stW 7 (some 0) (some "C:\\Foo.exe")).2.2.1
     1 0 0 rfl rfl (by decide),
   (c2_fail_closed_amended envLookupFail stW 7 (some 3) (some "C:\\Foo.exe")).2.2.2.1
     rfl,
   (c2_fail_closed_amended envPidZero stW 7 (some 3) (some "C:\\Foo.exe")).2.2.2.2.1
     1 rfl,
   (c2_fail_closed_amended envExeDenied stW 9 (some 3) (some "C:\\Foo.exe")).2.2.2.2.2.1
     1 42 rfl rfl,
   (c2_fail_closed_amended envLookupFail stW 7 (some 3) (some "C:\\Foo.exe")).2.2.2.2.2.2
     rfl rfl (by intro r hr; simp [stW] at hr; omega)⟩

/-- C3: a polling cycle whose foreground window does not resolve to the
configured target performs no correction and leaves the state — in particular
`lang_id_is_english` — unchanged, whatever the window's layout code. -/
theorem c3_skip_nonmatching (env : OSEnv) (st : AppState)
    (h : resolveTarget env st env.foregroundWindow = false) :
    check_input_method env st = (st, false) := by
  simp [check_input_method, h]

/-- C3 witness: with all lookups failing on foreground window 7 and window 1
(root 5) selected, the cycle is a no-op. -/
theorem c3_skip_nonmatching_witness :
    check_input_method envLookupFail stW = (stW, false) :=
  c3_skip_nonmatching envLookupFail stW rfl

/-- C4: the corrector stops at the first success: a failed layout load aborts
with no send and no fallback; a successful send ends the run with the settle
sleep and no fallback; a failed (or raising) send runs exactly the fallback;
and attach/activate effects occur only when the load succeeded and the send
failed. -/
theorem c4_corrector_first_success (env : OSEnv) (hwnd : Nat) :
    (env.loadKeyboardLayout = 0 →
      force_english_for_hwnd env hwnd = [Effect.loadLayout])
    ∧ (env.loadKeyboardLayout ≠ 0 → (env.sendMessageTimeout).getD 0 ≠ 0 →
      force_english_for_hwnd env hwnd
        = [Effect.loadLayout, Effect.sendMessage, Effect.sleepSettle])
    ∧ (env.loadKeyboardLayout ≠ 0 → (env.sendMessageTimeout).getD 0 = 0 →
      force_english_for_hwnd env hwnd
        = [Effect.loadLayout, Effect.sendMessage] ++ fallbackEffects env hwnd)
    ∧ ((Effect.attach ∈ force_english_for_hwnd env hwnd
        ∨ Effect.activate ∈ force_english_for_hwnd env hwnd) →
      env.loadKeyboardLayout ≠ 0 ∧ (env.sendMessageTimeout).getD 0 = 0) := by
  refine ⟨?_, ?_, ?_, ?_⟩
  · intro h; simp [force_english_for_hwnd, h]
  · intro h1 h2; simp [force_english_for_hwnd, h1, h2]
  · intro h1 h2; simp [force_english_for_hwnd, h1, h2]
  · intro h
    by_cases h1 : env.loadKeyboardLayout = 0
    · simp [force_english_for_hwnd, h1] at h
    · by_cases h2 : (env.sendMessageTimeout).getD 0 = 0
      · exact ⟨h1, h2⟩
      · simp [force_english_for_hwnd, h1, h2] at h

/-- C4 witness: the three outcomes at concrete environments: load failure,
successful send, raising send. -/
theorem c4_corrector_first_success_witness :
    force_english_for_hwnd envLookupFail 7 = [Effect.loadLayout]
    ∧ force_english_for_hwnd envHappy 9
        = [Effect.loadLayout, Effect.sendMessage, Effect.sleepSettle]
    ∧ force_english_for_hwnd envSendFail 9
        = [Effect.loadLayout, Effect.sendMessage] ++ fallbackEffects envSendFail 9
    ∧ (envSendFail.loadKeyboardLayout ≠ 0
        ∧ (envSendFail.sendMessageTimeout).getD 0 = 0) :=
  ⟨(c4_corrector_first_success envLookupFail 7).1 rfl,
   (c4_corrector_first_success envHappy 9).2.1 (by decide) (by decide),
   (c4_corrector_first_success envSendFail 9).2.2.1 (by decide) rfl,
   (c4_corrector_first_success envSendFail 9).2.2.2 (Or.inl (by decide))⟩

/-- C5: the inspector returns either exactly four uppercase hexadecimal
digits encoding the low 16 bits of the owning thread's layout handle, or
`none` when an OS lookup raises; and a cycle that receives `none` skips
without touching the state or invoking the corrector. -/
theorem c5_inspector_contract (env : OSEnv) (st : AppState) (hwnd : Nat) :
    (∀ s, get_current_keyboard_layout env hwnd = some s →
      s.length = 4 ∧ s.toList.all isUpperHexDigit = true
      ∧ ∃ tid pid layout_id, env.getWindowPidTid hwnd = some (tid, pid)
          ∧ env.getKeyboardLayout tid = some layout_id
          ∧ s = toHex4 (layout_id % 65536))
    ∧ (env.getWindowPidTid hwnd = none →
      get_current_keyboard_layout env hwnd = none)
    ∧ (∀ tid pid, env.getWindowPidTid hwnd = some (tid, pid) →
      env.getKeyboardLayout tid = none →
      get_current_keyboard_layout env hwnd = none)
    ∧ (get_current_keyboard_layout env env.foregroundWindow = none →
      check_input_method env st = (st, false)) := by
  refine ⟨?_, ?_, ?_, ?_⟩
  · intro s hs
    cases hpt : env.getWindowPidTid hwnd with
    | none => simp [get_current_keyboard_layout, hpt] at hs
    | some p =>
      obtain ⟨tid, pid⟩ := p
      cases hk : env.getKeyboardLayout tid with
      | none => simp [get_current_keyboard_layout, hpt, hk] at hs
      | some layout_id =>
        simp [get_current_keyboard_layout, hpt, hk] at hs
        subst hs
        exact ⟨toHex4_length _, toHex4_all_upper _,
          tid, pid, layout_id, rfl, hk, rfl⟩
  · intro h; simp [get_current_keyboard_layout, h]
  · intro tid pid h1 h2; simp [get_current_keyboard_layout, h1, h2]
  · intro h
    by_cases h0 : env.foregroundWindow = 0
    · simp [check_input_method, h0]
    · by_cases hr : resolveTarget env st env.foregroundWindow
      · simp [check_input_method, h0, hr, h]
      · simp [check_input_method, h0, hr]

/-- C5 witness: the happy environment yields the tag `"0409"` with the stated
shape, and an environment whose lookups raise yields `none` and a skipped
cycle. -/
theorem c5_inspector_contract_witness :
    ((("0409" : String).length = 4
        ∧ ("0409" : String).toList.all isUpperHexDigit = true
        ∧ ∃ tid pid layout_id, envHappy.getWindowPidTid 9 = some (tid, pid)
            ∧ envHappy.getKeyboardLayout tid = some layout_id
            ∧ ("0409" : String) = toHex4 (layout_id % 65536))
      ∧ get_current_keyboard_layout envLookupFail 7 = none)
    ∧ check_input_method envLookupFail stW = (stW, false) :=
  ⟨⟨(c5_inspector_contract envHappy stW 9).1 "0409" rfl,
    (c5_inspector_contract envLookupFail stW 7).2.1 rfl⟩,
   (c5_inspector_contract envLookupFail stW 7).2.2.2 rfl⟩

/-- C6 counterexample: the resolver's comparison is `normpath` after
lowercasing, which also collapses `..` components; so for the target path
`C:\Apps\..\Foo.exe` and the executable `C:\Foo.exe` the resolver returns
true although the two paths differ after mere lowercasing and
separator normalization. -/
theorem c6_path_match_cex :
    is_window_belongs_to_path envHappy (some "C:\\Apps\\..\\Foo.exe") 9 = true
    ∧ specSepNormalize "C:\\Apps\\..\\Foo.exe" ≠ specSepNormalize "C:\\Foo.exe" :=
  ⟨rfl, by decide⟩

/-- C6 (amended): when the lookups succeed, path-mode matching returns true
iff the two paths are equal after lowercasing and full Windows path
normalization (`normpath`: separator replacement and collapsing, and
resolution of `.` and `..` components); in particular the comparison is
case-insensitive and separator-normalized. -/
theorem c6_path_match_amended (env : OSEnv) (hwnd tid pid : Nat)
    (t exe : String) (hh : hwnd ≠ 0) (ht : t ≠ "")
    (hp : env.getWindowPidTid hwnd = some (tid, pid)) (hpid : pid ≠ 0)
    (he : env.processExe pid = some exe) :
    is_window_belongs_to_path env (some t) hwnd = true
      ↔ normpath (asciiLower t) = normpath (asciiLower exe) := by
  simp [is_window_belongs_to_path, hh, ht, hp, hpid, he]

/-- C6 witness: the claim's own example — target `C:\Apps\Foo.EXE` matches
the executable reported as `c:\apps\foo.exe`. -/
theorem c6_path_match_amended_witness :
    is_window_belongs_to_path envExeLower (some "C:\\Apps\\Foo.EXE") 9 = true :=
  (c6_path_match_amended envExeLower 9 1 42 "C:\\Apps\\Foo.EXE"
      "c:\\apps\\foo.exe" (by decide) (by decide) rfl (by decide) rfl).mpr
    (by decide)

/-- C7: invoking start while the running flag is set is a no-op with a
warning: the session state — flag, target fields and task list — is returned
unchanged and no new polling task is spawned. -/
theorem c7_start_while_running (s : Session) (h : s.is_running = true) :
    start_monitoring s = (s, true) := by
  simp [start_monitoring, h]

/-- C7 witness: starting the already-running one-task session changes
nothing and warns. -/
theorem c7_start_while_running_witness :
    start_monitoring sessOne = (sessOne, true) :=
  c7_start_while_running sessOne rfl

/-- C8 counterexample: stop immediately followed by start, with the old
polling task never reaching its loop check in between, leaves two tasks in
their loops with the flag set again — and each of them then observes the flag
as set (its tick leaves the state unchanged).  The initial session is the
one a fresh start produces. -/
theorem c8_no_duplicate_cex :
    (start_monitoring sessFresh).1 = sessOne
    ∧ countActive (runEvents sessOne [Ev.stop, Ev.start]).tasks = 2
    ∧ (runEvents sessOne [Ev.stop, Ev.start]).is_running = true
    ∧ sessionStep (runEvents sessOne [Ev.stop, Ev.start]) (Ev.tick 0)
        = runEvents sessOne [Ev.stop, Ev.start]
    ∧ sessionStep (runEvents sessOne [Ev.stop, Ev.start]) (Ev.tick 1)
        = runEvents sessOne [Ev.stop, Ev.start] := by
  decide

/-- C8 (amended): when the single live polling task does reach its
`while self.is_running` check between the stop and the restart, it observes
the cleared flag and exits, and after the restart at most one task is live;
but if the restart happens before that check, the stop-then-start
interleaving leaves two live tasks (see the counterexample). -/
theorem c8_no_duplicate_amended (s : Session) (i : Nat)
    (hrun : s.is_running = true) (hi : s.tasks.getD i false = true)
    (hone : countActive s.tasks = 1) :
    (sessionStep s Ev.stop).is_running = false
    ∧ (runEvents s [Ev.stop, Ev.tick i]).tasks.getD i false = false
    ∧ countActive (runEvents s [Ev.stop, Ev.tick i, Ev.start]).tasks ≤ 1 := by
  have hi2 : s.tasks[i]?.getD false = true := by simpa using hi
  have h1 : sessionStep s Ev.stop = { s with is_running := false } := by
    simp [sessionStep, stop_monitoring, hrun]
  have h2 : sessionStep { s with is_running := false } (Ev.tick i)
      = { s with is_running := false, tasks := s.tasks.set i false } := by
    simp [sessionStep, hi2]
  have hc0 : countActive (s.tasks.set i false) = 0 := by
    have := countActive_set_false s.tasks i hi
    omega
  refine ⟨by rw [h1], ?_, ?_⟩
  · show (sessionStep (sessionStep s Ev.stop) (Ev.tick i)).tasks.getD i false = false
    rw [h1, h2]
    exact getD_set_false s.tasks i
  · show countActive ((sessionStep (sessionStep (sessionStep s Ev.stop) (Ev.tick i)) Ev.start).tasks) ≤ 1
    rw [h1, h2]
    show countActive ((start_monitoring _).1).tasks ≤ 1
    rcases start_tasks_cases
        { s with is_running := false, tasks := s.tasks.set i false } with h | h <;>
      simp [h, countActive_append, hc0, countActive]

/-- C8 witness: the orderly interleaving at the concrete one-task session:
stop is observed, the old task exits, and the restart leaves one live task. -/
theorem c8_no_duplicate_amended_witness :
    (sessionStep sessOne Ev.stop).is_running = false
    ∧ (runEvents sessOne [Ev.stop, Ev.tick 0]).tasks.getD 0 false = false
    ∧ countActive (runEvents sessOne [Ev.stop, Ev.tick 0, Ev.start]).tasks ≤ 1 :=
  c8_no_duplicate_amended sessOne 0 rfl rfl rfl

/-- C9: a failed ancestor lookup makes `_get_root_hwnd` return the handle
itself, so in window mode with a selected target the resolver's verdict under
an ancestor-lookup failure is exactly whether the raw foreground handle
equals the stored target root — a lookup failure does not unconditionally
resolve to "does not belong". -/
theorem c9_root_fallback (env : OSEnv) (st : AppState) (h r : Nat)
    (ha : env.getAncestor h = none) :
    get_root_hwnd env h = h
    ∧ (st.monitor_mode = Mode.window → st.target_window ≠ none →
      st.target_root_hwnd = some r → r ≠ 0 →
      resolveTarget env st h = (h == r)) := by
  constructor
  · simp [get_root_hwnd, ha]
  · intro hm hw hr hr0
    cases htw : st.target_window with
    | none => exact absurd htw hw
    | some w => simp [resolveTarget, hm, htw, hr, hr0, get_root_hwnd, ha]

/-- C9 witness: with the ancestor lookup raising on handle 5 and target root
5, the resolver matches (and on handle 7 against root 5 it would not,
per the C2 witness). -/
theorem c9_root_fallback_witness :
    get_root_hwnd envRootFail 5 = 5
    ∧ resolveTarget envRootFail stW 5 = (5 == 5) :=
  ⟨(c9_root_fallback envRootFail stW 5 5 rfl).1,
   (c9_root_fallback envRootFail stW 5 5 rfl).2 rfl (by simp [stW]) rfl
     (by decide)⟩

/-- C10: a non-empty tag that is not valid hexadecimal is parsed as 0
(`ValueError` → `langid_value = 0`), which classifies as non-English, so that
cycle records non-English and invokes the corrector instead of skipping. -/
theorem c10_invalid_hex_forces_correction (st : AppState) (tag : String)
    (_hne : tag ≠ "") (hbad : pyIntHex tag = none) :
    is_english_langid ((pyIntHex tag).getD 0) = false
    ∧ processLangTag st tag
        = ({ st with last_lang_tag := tag, lang_id_is_english := false }, true) := by
  have h0 : (pyIntHex tag).getD 0 = 0 := by rw [hbad]; rfl
  have h1 : is_english_langid 0 = false := by decide
  constructor
  · rw [h0]; exact h1
  · simp [processLangTag, h0, h1]

/-- C10 witness: the tag `"WXYZ"` is non-empty, fails to parse, and forces a
correction. -/
theorem c10_invalid_hex_forces_correction_witness :
    is_english_langid ((pyIntHex "WXYZ").getD 0) = false
    ∧ processLangTag stW "WXYZ"
        = ({ stW with last_lang_tag := "WXYZ", lang_id_is_english := false }, true) :=
  c10_invalid_hex_forces_correction stW "WXYZ" (by decide) (by decide)

end AlwaysEn
